import Mathlib

/-!
Shallow embedding of the job-execution and diff-state lifecycle of
`webchanges/handler.py` (classes `Snapshot`, `JobState`, `Report`).

Python mutation of `self` is modelled by explicit state passing: a method
that mutates the `JobState` returns the updated record.  An operation that
may raise returns the escaping exception alongside the state it leaves
behind (Python mutations performed before a raise persist in the object the
caller holds).  External collaborators (`SsdbStorage`, `JobBase.retrieve`,
`FilterBase`, `DifferBase`, the job's error hooks) are parameters of the
model, typed by the contracts the handler code relies on.
-/

set_option autoImplicit false

namespace Webchanges

/-- Exceptions.  `notModifiedError` stands for `webchanges.jobs.NotModifiedError`;
`keyError` for the `KeyError` a failed dict subscript raises; `other n` for any
other exception object, identified by a code. -/
inductive Exc where
  | notModifiedError : Exc
  | keyError : Exc
  | other : Nat → Exc
deriving DecidableEq

/-- `isinstance(e, NotModifiedError)`. -/
def Exc.isNotModified : Exc → Bool
  | .notModifiedError => true
  | _ => false

/-- The value returned by the job's `ignore_error` hook: `bool | str`. -/
inductive PyVal where
  | bool : Bool → PyVal
  | str : String → PyVal
deriving DecidableEq

/-- Python truthiness of a `bool | str` value: a string is truthy iff nonempty. -/
def PyVal.truthy : PyVal → Bool
  | .bool b => b
  | .str s => !s.isEmpty

/-- Python truthiness of `os.getenv(...)`: `None` (unset) and the empty string
are falsy; any other string is truthy. -/
def getenvTruthy : Option String → Bool
  | none => false
  | some s => decide (s ≠ "")

/-- The report kinds keying the diff memoization dicts. -/
inductive ReportKind where
  | text
  | markdown
  | html
deriving DecidableEq

/-- The classification verb stamped on a `JobState` by `Report._result`. -/
inductive Verb where
  | new
  | changed
  | changedNoReport
  | unchanged
  | error
deriving DecidableEq

/-- `Snapshot` named tuple: data, timestamp, tries, etag, mime_type.
Timestamps are opaque to every claim, so they are modelled as `Nat`. -/
structure Snapshot where
  data : String
  timestamp : Nat
  tries : Nat
  etag : String
  mime_type : String
deriving DecidableEq

/-- Python `dict` lookup, for a dict modelled as an insertion-ordered
association list without duplicate keys. -/
def dictGet {α : Type} [DecidableEq α] {β : Type} : List (α × β) → α → Option β
  | [], _ => none
  | (k2, v) :: rest, k => if k2 = k then some v else dictGet rest k

/-- Python `d[k] = v`: replace in place if the key is present, else append
(insertion order preserved, as in a Python dict). -/
def dictInsert {α : Type} [DecidableEq α] {β : Type} : List (α × β) → α → β → List (α × β)
  | [], k, v => [(k, v)]
  | (k2, v2) :: rest, k, v =>
    if k2 = k then (k, v) :: rest else (k2, v2) :: dictInsert rest k v

/-- Python `d.update(entries)`: insert each entry in iteration order. -/
def dictUpdate {α : Type} [DecidableEq α] {β : Type}
    (d : List (α × β)) (entries : List (α × β)) : List (α × β) :=
  entries.foldl (fun acc kv => dictInsert acc kv.1 kv.2) d

/-- Mutable run state of one job (`JobState`), fields as in the source.
The job and the snapshots database are passed to the operations separately
(see `Job` and `Env`) so that the state itself stays first-order. -/
structure JobState where
  old_snapshot : Snapshot
  old_data : String
  old_etag : String
  old_mime_type : String
  old_timestamp : Nat
  tries : Nat
  new_data : String
  new_etag : String
  new_mime_type : String
  new_timestamp : Nat
  exception : Option Exc
  traceback : String
  error_ignored : Option PyVal
  generated_diff : List (ReportKind × String)
  unfiltered_diff : List (ReportKind × String)
  history_dic_snapshots : List (String × Snapshot)
  verb : Option Verb
deriving DecidableEq

/-- A filter step, as invoked by `FilterBase.process(kind, subfilter, self,
data, mime_type)`: it may read the job state and returns new data and mime
type, or raises. -/
abbrev FilterFn := JobState → String → String → Except Exc (String × String)

/-- The differ, as invoked through `DifferBase.normalize_differ` followed by
`DifferBase.process(differ_kind, subdiffer, self, report_kind, tz,
self.unfiltered_diff)`: produces a mapping of report kinds to unfiltered
diffs, or raises (normalization failures included). -/
abbrev DifferFn := JobState → ReportKind → Option String → Except Exc (List (ReportKind × String))

/-- The external job (`JobBase`) interface the handler relies on.
`retrieve` stands for one run's `job.retrieve(self, headless)` outcome;
`normalize_filters` for `FilterBase.normalize_filter_list(job.filter, ...)`
(which may itself raise), and similarly `normalize_diff_filters` for the
job's `diff_filter` list.  `auto_process` is `FilterBase.auto_process`. -/
structure Job where
  guid : String
  compared_versions : Option Nat
  retrieve : Except Exc (String × String × String)
  auto_process : FilterFn
  normalize_filters : Except Exc (List FilterFn)
  normalize_diff_filters : Except Exc (List FilterFn)
  format_error : Exc → Except Exc String
  ignore_error : Exc → Except Exc PyVal
  run_differ : DifferFn

/-- The ambient environment of one `process` call: the snapshots database
(`load` may raise; history fetch modelled total), the current clock value
used for every `time.time()` call, and `os.getenv('PYCHARM_HOSTED')`. -/
structure Env where
  db_load : String → Except Exc Snapshot
  db_history : String → Nat → List Snapshot
  now : Nat
  pycharm_hosted : Option String

/-- `JobState.save`: when `use_old_data`, first copy the old data, etag and
mime type into the `new_*` fields; then always write a fresh `Snapshot` built
from the current `new_*` fields and `tries`, keyed by the job's GUID.
The snapshots database table is modelled as a GUID-keyed dict of the latest
snapshot per GUID. -/
def JobState.save (job : Job) (use_old_data : Bool) (js : JobState)
    (db : List (String × Snapshot)) : JobState × List (String × Snapshot) :=
  let js1 :=
    if use_old_data then
      { js with
        new_data := js.old_data
        new_etag := js.old_etag
        new_mime_type := js.old_mime_type }
    else js
  let snap : Snapshot :=
    { data := js1.new_data
      timestamp := js1.new_timestamp
      tries := js1.tries
      etag := js1.new_etag
      mime_type := js1.new_mime_type }
  (js1, dictInsert db job.guid snap)

/-- Sequential application of the explicit filter chain:
`for filter_kind, subfilter in ...: filtered_data, mime_type =
FilterBase.process(filter_kind, subfilter, self, filtered_data, mime_type)`.
An exception in one step escapes with the remaining steps unapplied. -/
def applyFilterChain : List FilterFn → JobState → String → String → Except Exc (String × String)
  | [], _, data, mime => .ok (data, mime)
  | f :: rest, js, data, mime =>
    match f js data mime with
    | .error e => .error e
    | .ok dm => applyFilterChain rest js dm.1 dm.2

/-- `JobState.load` after a successful database read: unpack the loaded
snapshot's five fields and, when the job configures `compared_versions > 1`,
build `history_dic_snapshots` as the dict comprehension keyed by data. -/
def loadedState (env : Env) (job : Job) (js : JobState) (snap : Snapshot) : JobState :=
  let js1 :=
    { js with
      old_snapshot := snap
      old_data := snap.data
      old_timestamp := snap.timestamp
      tries := snap.tries
      old_etag := snap.etag
      old_mime_type := snap.mime_type }
  match job.compared_versions with
  | some cv =>
    if 1 < cv then
      { js1 with
        history_dic_snapshots :=
          (env.db_history job.guid cv).foldl (fun acc s => dictInsert acc s.data s) [] }
    else js1
  | none => js1

/-- The state after `self.load()` and `self.new_timestamp = time.time()`. -/
def timestampedState (env : Env) (job : Job) (js : JobState) (snap : Snapshot) : JobState :=
  { loadedState env job js snap with new_timestamp := env.now }

/-- The state after retrieval also assigned `self.new_etag`. -/
def retrievedState (env : Env) (job : Job) (js : JobState) (snap : Snapshot)
    (etag : String) : JobState :=
  { timestampedState env job js snap with new_etag := etag }

/-- The body of the inner `try` of `process` (steps 2 to 5: load, timestamp,
retrieve, automatic filter, explicit filter chain).  Returns the state as
mutated so far together with the escaping exception, if any. -/
def runInner (env : Env) (job : Job) (js : JobState) : JobState × Option Exc :=
  match env.db_load job.guid with
  | .error e => (js, some e)
  | .ok snap =>
    let jsT := timestampedState env job js snap
    match job.retrieve with
    | .error e => (jsT, some e)
    | .ok dem =>
      let jsR := retrievedState env job js snap dem.2.1
      match job.auto_process jsR dem.1 dem.2.2 with
      | .error e => (jsR, some e)
      | .ok dm1 =>
        match job.normalize_filters with
        | .error e => (jsR, some e)
        | .ok fl =>
          match applyFilterChain fl jsR dm1.1 dm1.2 with
          | .error e => (jsR, some e)
          | .ok dm2 => ({ jsR with new_data := dm2.1, new_mime_type := dm2.2 }, none)

/-- The inner `except Exception as e` handler of `process`: timestamp, record
the exception, format it via the job's `format_error`, ask the job's
`ignore_error`, and increment `tries` unless the error was ignored or is a
`NotModifiedError`.  Either hook may itself raise; the escaping exception is
returned with the state as mutated so far. -/
def innerHandler (env : Env) (job : Job) (js : JobState) (e : Exc) : JobState × Option Exc :=
  let js1 := { js with new_timestamp := env.now, exception := some e }
  match job.format_error e with
  | .error e2 => (js1, some e2)
  | .ok tb =>
    let js2 := { js1 with traceback := tb }
    match job.ignore_error e with
    | .error e2 => (js2, some e2)
    | .ok ign =>
      let js3 := { js2 with error_ignored := some ign }
      if !(ign.truthy || e.isNotModified) then ({ js3 with tries := js3.tries + 1 }, none)
      else (js3, none)

/-- The body of the outer `except Exception as e` handler of `process` past
the `PYCHARM_HOSTED` re-raise: record the exception, format it (a second
failure here escapes), force `error_ignored = False`, and increment `tries`
unless the exception is a `NotModifiedError`. -/
def outerRecover (job : Job) (js : JobState) (e : Exc) : JobState × Option Exc :=
  let js1 := { js with exception := some e }
  match job.format_error e with
  | .error e3 => (js1, some e3)
  | .ok tb =>
    let js2 := { js1 with traceback := tb, error_ignored := some (PyVal.bool false) }
    if e.isNotModified then (js2, none)
    else ({ js2 with tries := js2.tries + 1 }, none)

/-- `JobState.process`: short-circuit when an exception is pre-seeded, else
run the inner pipeline; on failure run the inner handler; if the handler
itself raises, re-raise when `PYCHARM_HOSTED` is truthy, else recover at the
outer layer.  Returns the final state and the exception propagated to the
caller, if any (the `headless` flag is folded into `Job.retrieve`). -/
def process (env : Env) (job : Job) (js : JobState) : JobState × Option Exc :=
  if js.exception.isSome then ({ js with new_timestamp := env.now }, none)
  else
    match runInner env job js with
    | (js1, none) => (js1, none)
    | (js1, some e) =>
      match innerHandler env job js1 e with
      | (js2, none) => (js2, none)
      | (js2, some e2) =>
        if getenvTruthy env.pycharm_hosted then (js2, some e2)
        else outerRecover job js2 e2

/-- Whether the exception escaping the inner handler, if any, is a
not-modified signal (vacuously true when nothing escapes). -/
def escNotModified : Option Exc → Bool
  | none => true
  | some e2 => e2.isNotModified

/-- The Python identity test `self.generated_diff is <empty dict literal>`
that appears in `get_diff`.  The literal allocates a fresh dict object, whose
identity differs from that of any pre-existing object, so the test is False
on every call. -/
def pyDictIsEmptyLiteral (_ : List (ReportKind × String)) : Bool := false

/-- `self.generated_diff is not <empty dict literal>`: True on every call. -/
def pyDictIsNotEmptyLiteral (d : List (ReportKind × String)) : Bool := !pyDictIsEmptyLiteral d

/-- Tail of `get_diff` after the memoization checks: read the requested kind
from `unfiltered_diff` (a missing key raises `KeyError`), apply the job's
`diff_filter` chain when the diff is a nonempty string, cache the filtered
result in `generated_diff` and return it.  `invoked` records whether the
differ stage ran during this call. -/
def finishDiff (job : Job) (kind : ReportKind) (js : JobState) (invoked : Bool) :
    JobState × Bool × Except Exc String :=
  match dictGet js.unfiltered_diff kind with
  | none => (js, invoked, .error Exc.keyError)
  | some g =>
    if g ≠ "" then
      match job.normalize_diff_filters with
      | .error e => (js, invoked, .error e)
      | .ok fl =>
        match applyFilterChain fl js g "text/plain" with
        | .error e => (js, invoked, .error e)
        | .ok gm =>
          ({ js with generated_diff := dictInsert js.generated_diff kind gm.1 },
            invoked, .ok gm.1)
    else
      ({ js with generated_diff := dictInsert js.generated_diff kind g }, invoked, .ok g)

/-- `JobState.get_diff(report_kind, differ, tz)`: return the cached filtered
diff when present; otherwise run the differ (the override or the job's own)
when the unfiltered diff for this kind is missing, merge its mapping into
`unfiltered_diff`, then filter and cache via `finishDiff`.  Returns the final
state, whether the differ stage ran, and the result (or escaping
exception). -/
def JobState.get_diff (job : Job) (differ : Option DifferFn) (tz : Option String)
    (kind : ReportKind) (js : JobState) : JobState × Bool × Except Exc String :=
  if pyDictIsNotEmptyLiteral js.generated_diff && (dictGet js.generated_diff kind).isSome then
    (js, false, .ok ((dictGet js.generated_diff kind).getD ""))
  else if pyDictIsEmptyLiteral js.generated_diff || (dictGet js.unfiltered_diff kind).isNone then
    match (differ.getD job.run_differ) js kind tz with
    | .error e => (js, true, .error e)
    | .ok ud =>
      finishDiff job kind { js with unfiltered_diff := dictUpdate js.unfiltered_diff ud } true
  else finishDiff job kind js false

/-- The variant of `get_diff` described by the spec: the cache check is solely
"report_kind in generated_diff" and the recompute condition solely
"report_kind not in unfiltered_diff", with no identity test against a fresh
empty dict literal. -/
def get_diff_simplified (job : Job) (differ : Option DifferFn) (tz : Option String)
    (kind : ReportKind) (js : JobState) : JobState × Bool × Except Exc String :=
  if (dictGet js.generated_diff kind).isSome then
    (js, false, .ok ((dictGet js.generated_diff kind).getD ""))
  else if (dictGet js.unfiltered_diff kind).isNone then
    match (differ.getD job.run_differ) js kind tz with
    | .error e => (js, true, .error e)
    | .ok ud =>
      finishDiff job kind { js with unfiltered_diff := dictUpdate js.unfiltered_diff ud } true
  else finishDiff job kind js false

/-! Concrete instances used to exercise the theorems on closed inputs. -/

def snap0 : Snapshot :=
  { data := "old", timestamp := 5, tries := 2, etag := "etag0", mime_type := "text/plain" }

def js0 : JobState :=
  { old_snapshot := { data := "", timestamp := 0, tries := 0, etag := "", mime_type := "text/plain" }
    old_data := ""
    old_etag := ""
    old_mime_type := "text/plain"
    old_timestamp := 0
    tries := 0
    new_data := ""
    new_etag := ""
    new_mime_type := ""
    new_timestamp := 0
    exception := none
    traceback := ""
    error_ignored := none
    generated_diff := []
    unfiltered_diff := []
    history_dic_snapshots := []
    verb := none }

def envA : Env :=
  { db_load := fun _ => .ok snap0
    db_history := fun _ _ => []
    now := 100
    pycharm_hosted := none }

def jobA : Job :=
  { guid := "g1"
    compared_versions := none
    retrieve := .error (Exc.other 1)
    auto_process := fun _ d m => .ok (d ++ "-auto", m)
    normalize_filters := .ok []
    normalize_diff_filters := .ok []
    format_error := fun _ => .ok "formatted"
    ignore_error := fun _ => .ok (PyVal.bool false)
    run_differ := fun _ _ _ =>
      .ok [(ReportKind.text, "diff-t"), (ReportKind.markdown, "diff-m"),
           (ReportKind.html, "diff-h")] }

def jobC2 : Job :=
  { jobA with
    retrieve := .error Exc.notModifiedError
    ignore_error := fun _ => .ok (PyVal.bool true) }

def filtersC3 : List FilterFn :=
  [fun _ d _ => Except.ok (d ++ "-filt", "text/markdown")]

def jobC3 : Job :=
  { jobA with
    retrieve := .ok ("data", "etag1", "text/html")
    normalize_filters := .ok filtersC3 }

def jobB : Job :=
  { jobA with ignore_error := fun _ => .error (Exc.other 2) }

def envB : Env := { envA with pycharm_hosted := some "1" }

/-- The display flags of `config['display']` consulted by
`Report.get_filtered_job_states`: 'unchanged', 'new', 'error' and
'empty-diff'. -/
structure DisplayConfig where
  unchanged : Bool
  new : Bool
  error : Bool
  empty_diff : Bool
deriving DecidableEq

/-- `any(job_state.verb == verb and not self.config['display'][verb] for verb
in ...)` over the set of 'unchanged', 'new' and 'error' (`any` over a set is
order-independent). -/
def displayExcluded (cfg : DisplayConfig) (v : Option Verb) : Bool :=
  (decide (v = some Verb.unchanged) && !cfg.unchanged) ||
  (decide (v = some Verb.new) && !cfg.new) ||
  (decide (v = some Verb.error) && !cfg.error)

/-- `Report.get_filtered_job_states`: yield, in order, the job states that
pass the display policy.  Each state is paired with its job (the Python
`JobState` objects hold `self.job`); a `changed` state with empty-diff
display disabled has its diff computed lazily now (with the Report's
timezone, default text kind, no differ override), the yielded state carrying
the memoization that call performed; an exception escaping `get_diff` aborts
the iteration. -/
def Report.get_filtered_job_states (cfg : DisplayConfig) (tz : Option String) :
    List (Job × JobState) → Except Exc (List JobState)
  | [] => .ok []
  | p :: rest =>
    if !displayExcluded cfg p.2.verb && !(decide (p.2.verb = some Verb.changedNoReport)) then
      if decide (p.2.verb = some Verb.changed) && !cfg.empty_diff then
        match JobState.get_diff p.1 none tz ReportKind.text p.2 with
        | (_, _, .error e) => .error e
        | (js2, _, .ok s) =>
          if s = "" then Report.get_filtered_job_states cfg tz rest
          else (Report.get_filtered_job_states cfg tz rest).map (fun l => js2 :: l)
      else (Report.get_filtered_job_states cfg tz rest).map (fun l => p.2 :: l)
    else Report.get_filtered_job_states cfg tz rest

/-- The diff computation `get_filtered_job_states` performs for a state:
`get_diff` with the default text kind, no differ override and the Report's
resolved timezone. -/
def reportDiff (tz : Option String) (p : Job × JobState) :
    JobState × Bool × Except Exc String :=
  JobState.get_diff p.1 none tz ReportKind.text p.2

/-- The string that diff computation produces (irrelevant default on an
escaping exception). -/
def reportDiffStr (tz : Option String) (p : Job × JobState) : String :=
  match (reportDiff tz p).2.2 with
  | .ok s => s
  | .error _ => ""

/-- The claim's selection predicate: not `changed,no_report`; not a verb of
'unchanged'/'new'/'error' whose display flag is disabled; and not a `changed`
state whose diff is empty while empty-diff display is disabled. -/
def reportKeep (cfg : DisplayConfig) (tz : Option String) (p : Job × JobState) : Bool :=
  !(decide (p.2.verb = some Verb.changedNoReport)) &&
  !displayExcluded cfg p.2.verb &&
  !(decide (p.2.verb = some Verb.changed) && !cfg.empty_diff &&
    decide (reportDiffStr tz p = ""))

/-- The state yielded for a kept element: for a `changed` state whose diff was
computed now, the post-`get_diff` (memoized) state; otherwise the state as
passed in. -/
def reportYield (cfg : DisplayConfig) (tz : Option String) (p : Job × JobState) : JobState :=
  if decide (p.2.verb = some Verb.changed) && !cfg.empty_diff then (reportDiff tz p).1
  else p.2

def cfgW : DisplayConfig :=
  { unchanged := false, new := true, error := true, empty_diff := false }

def statesW : List (Job × JobState) :=
  [(jobA, { js0 with verb := some Verb.changed }),
   (jobA, { js0 with verb := some Verb.changedNoReport }),
   (jobA, { js0 with verb := some Verb.unchanged }),
   (jobA, { js0 with verb := some Verb.new })]

/-!
Object-identity (allocation) model for the mutable container attributes.
Python allocates each class-level default container once, at class-definition
time; a dict literal inside `__init__` allocates a fresh object on every
call.  Objects are identified here by allocation ids; two attributes are
aliased exactly when they carry the same id.
-/

/-- Allocation id of the class-level default dict bound to
`JobState.history_dic_snapshots` at class-definition time. -/
def jobStateHistoryClassId : Nat := 0

/-- Allocation id of the class-level default dict bound to
`JobState.unfiltered_diff` at class-definition time. -/
def jobStateUnfilteredClassId : Nat := 1

/-- Allocation id of the class-level default list bound to
`Report.job_states` at class-definition time. -/
def reportJobStatesClassId : Nat := 2

/-- Instance allocations use a counter starting past the class-level ids. -/
def firstInstanceId : Nat := 3

/-- The container-identity footprint of one `JobState` instance. -/
structure JobStateContainers where
  generated_diff_id : Nat
  unfiltered_diff_id : Nat
  history_dic_snapshots_id : Nat
deriving DecidableEq

/-- `JobState.__init__(snapshots_db, job)`: assigns fresh empty dicts to
`generated_diff` and `unfiltered_diff` (two new allocations) but never
touches `history_dic_snapshots`, so attribute lookup on a fresh instance
still reaches the class-level default dict.  Returns the instance's container
ids and the advanced allocation counter. -/
def jobStateInit (ctr : Nat) : JobStateContainers × Nat :=
  ({ generated_diff_id := ctr
     unfiltered_diff_id := ctr + 1
     history_dic_snapshots_id := jobStateHistoryClassId }, ctr + 2)

/-- The container-identity footprint of one `Report` instance. -/
structure ReportContainers where
  job_states_id : Nat
deriving DecidableEq

/-- `Report.__init__(urlwatch)` assigns `config` and `tz` only; `job_states`
keeps the class-level default list, whatever the allocation counter. -/
def reportInit (ctr : Nat) : ReportContainers × Nat :=
  ({ job_states_id := reportJobStatesClassId }, ctr)

theorem dictGet_dictInsert_self {α : Type} [DecidableEq α] {β : Type}
    (d : List (α × β)) (k : α) (v : β) : dictGet (dictInsert d k v) k = some v := by
  induction d with
  | nil => simp [dictInsert, dictGet]
  | cons hd tl ih =>
    by_cases h : hd.1 = k
    · simp [dictInsert, h, dictGet]
    · simp [dictInsert, h, dictGet, ih]

theorem loadedState_fields (env : Env) (job : Job) (js : JobState) (snap : Snapshot) :
    (loadedState env job js snap).old_snapshot = snap ∧
    (loadedState env job js snap).tries = snap.tries ∧
    (loadedState env job js snap).exception = js.exception := by
  unfold loadedState
  cases job.compared_versions with
  | none => exact ⟨rfl, rfl, rfl⟩
  | some cv =>
    by_cases h : 1 < cv <;> simp [h]

/-- When the database load succeeded, any state the inner pipeline leaves
behind on failure carries the loaded snapshot, its `tries`, and the entry
`exception` field untouched. -/
theorem runInner_some_state (env : Env) (job : Job) (js : JobState) (snap : Snapshot)
    (js1 : JobState) (e : Exc)
    (h1 : env.db_load job.guid = .ok snap)
    (h2 : runInner env job js = (js1, some e)) :
    js1.old_snapshot = snap ∧ js1.tries = snap.tries ∧ js1.exception = js.exception := by
  obtain ⟨hL1, hL2, hL3⟩ := loadedState_fields env job js snap
  have hT : (timestampedState env job js snap).old_snapshot = snap ∧
      (timestampedState env job js snap).tries = snap.tries ∧
      (timestampedState env job js snap).exception = js.exception := by
    exact ⟨hL1, hL2, hL3⟩
  unfold runInner at h2
  rw [h1] at h2
  dsimp only at h2
  cases hr : job.retrieve with
  | error e0 =>
    rw [hr] at h2
    dsimp only at h2
    obtain ⟨h2a, _⟩ := Prod.mk.injEq .. ▸ h2
    rw [← h2a]
    exact hT
  | ok dem =>
    rw [hr] at h2
    dsimp only at h2
    have hR : (retrievedState env job js snap dem.2.1).old_snapshot = snap ∧
        (retrievedState env job js snap dem.2.1).tries = snap.tries ∧
        (retrievedState env job js snap dem.2.1).exception = js.exception := by
      exact ⟨hL1, hL2, hL3⟩
    cases ha : job.auto_process (retrievedState env job js snap dem.2.1) dem.1 dem.2.2 with
    | error e0 =>
      rw [ha] at h2
      dsimp only at h2
      obtain ⟨h2a, _⟩ := Prod.mk.injEq .. ▸ h2
      rw [← h2a]
      exact hR
    | ok dm1 =>
      rw [ha] at h2
      dsimp only at h2
      cases hn : job.normalize_filters with
      | error e0 =>
        rw [hn] at h2
        dsimp only at h2
        obtain ⟨h2a, _⟩ := Prod.mk.injEq .. ▸ h2
        rw [← h2a]
        exact hR
      | ok fl =>
        rw [hn] at h2
        dsimp only at h2
        cases hc : applyFilterChain fl (retrievedState env job js snap dem.2.1) dm1.1 dm1.2 with
        | error e0 =>
          rw [hc] at h2
          dsimp only at h2
          obtain ⟨h2a, _⟩ := Prod.mk.injEq .. ▸ h2
          rw [← h2a]
          exact hR
        | ok dm2 =>
          rw [hc] at h2
          simp at h2

/-- C1: when retrieval or filtering raises `e`, the job's `format_error`
returns normally, `ignore_error(e)` returns a falsy value and `e` is not a
not-modified signal, `process` returns normally with `tries` equal to
`old_snapshot.tries + 1`, `exception = e` and `traceback` the job's formatted
error. -/
theorem process_increments_tries_on_unignored_error (env : Env) (job : Job) (js : JobState)
    (snap : Snapshot) (js1 : JobState) (e : Exc) (tb : String) (ign : PyVal)
    (h0 : js.exception = none)
    (h1 : env.db_load job.guid = .ok snap)
    (h2 : runInner env job js = (js1, some e))
    (h3 : job.format_error e = .ok tb)
    (h4 : job.ignore_error e = .ok ign)
    (h5 : ign.truthy = false)
    (h6 : e.isNotModified = false) :
    ∃ js2, process env job js = (js2, none) ∧
      js2.old_snapshot = snap ∧
      js2.tries = snap.tries + 1 ∧
      js2.tries = js2.old_snapshot.tries + 1 ∧
      js2.exception = some e ∧
      js2.traceback = tb := by
  obtain ⟨ha, hb, _⟩ := runInner_some_state env job js snap js1 e h1 h2
  have hih : innerHandler env job js1 e =
      ({ js1 with
          new_timestamp := env.now
          exception := some e
          traceback := tb
          error_ignored := some ign
          tries := js1.tries + 1 }, none) := by
    unfold innerHandler
    rw [h3]
    dsimp only
    rw [h4]
    dsimp only
    rw [h5, h6]
    rfl
  have hp : process env job js =
      ({ js1 with
          new_timestamp := env.now
          exception := some e
          traceback := tb
          error_ignored := some ign
          tries := js1.tries + 1 }, none) := by
    unfold process
    rw [h0]
    simp only [Option.isSome_none, Bool.false_eq_true, if_false]
    rw [h2]
    dsimp only
    rw [hih]
  exact ⟨_, hp, ha, by simp [hb], by simp [ha, hb], rfl, rfl⟩

theorem innerHandler_old_snapshot (env : Env) (job : Job) (js : JobState) (e : Exc) :
    (innerHandler env job js e).1.old_snapshot = js.old_snapshot := by
  unfold innerHandler
  cases job.format_error e with
  | error e2 => rfl
  | ok tb =>
    dsimp only
    cases job.ignore_error e with
    | error e2 => rfl
    | ok ign =>
      dsimp only
      by_cases h : (!(ign.truthy || e.isNotModified)) = true <;> simp [h]

/-- The inner handler never increments `tries` on a not-modified signal,
whatever `ignore_error` returns and whether or not a hook raises. -/
theorem innerHandler_tries_notModified (env : Env) (job : Job) (js : JobState) (e : Exc)
    (h : e.isNotModified = true) : (innerHandler env job js e).1.tries = js.tries := by
  unfold innerHandler
  cases job.format_error e with
  | error e2 => rfl
  | ok tb =>
    dsimp only
    cases job.ignore_error e with
    | error e2 => rfl
    | ok ign => simp [h]

/-- When a hook raises, the inner handler escapes before the `tries`
increment, so `tries` is untouched. -/
theorem innerHandler_escape_tries (env : Env) (job : Job) (js : JobState) (e : Exc)
    (h : (innerHandler env job js e).2.isSome = true) :
    (innerHandler env job js e).1.tries = js.tries := by
  unfold innerHandler at h ⊢
  cases hfe : job.format_error e with
  | error e2 => rfl
  | ok tb =>
    rw [hfe] at h
    dsimp only at h ⊢
    cases hie : job.ignore_error e with
    | error e2 => rfl
    | ok ign =>
      rw [hie] at h
      dsimp only at h ⊢
      by_cases hc : (!(ign.truthy || e.isNotModified)) = true <;> simp [hc] at h

theorem outerRecover_old_snapshot (job : Job) (js : JobState) (e : Exc) :
    (outerRecover job js e).1.old_snapshot = js.old_snapshot := by
  unfold outerRecover
  cases job.format_error e with
  | error e3 => rfl
  | ok tb =>
    dsimp only
    by_cases h : e.isNotModified = true <;> simp [h]

/-- The outer recovery never increments `tries` on a not-modified signal
(and a second `format_error` failure escapes before the increment). -/
theorem outerRecover_tries_notModified (job : Job) (js : JobState) (e : Exc)
    (h : e.isNotModified = true) : (outerRecover job js e).1.tries = js.tries := by
  unfold outerRecover
  cases job.format_error e with
  | error e3 => rfl
  | ok tb => simp [h]

/-- C2: when the inner pipeline raises a `NotModifiedError` — and, should the
job's own hooks raise while handling it, the exception caught at the outer
layer is again a `NotModifiedError` — `tries` is left equal to
`old_snapshot.tries`, regardless of what `ignore_error` returns and of which
layer completes the handling (including a `PYCHARM_HOSTED` re-raise or a
second `format_error` failure, where the mutated state still has `tries`
unchanged). -/
theorem process_not_modified_keeps_tries (env : Env) (job : Job) (js : JobState)
    (snap : Snapshot) (js1 : JobState) (e : Exc)
    (h0 : js.exception = none)
    (h1 : env.db_load job.guid = .ok snap)
    (h2 : runInner env job js = (js1, some e))
    (h3 : e.isNotModified = true)
    (h4 : escNotModified (innerHandler env job js1 e).2 = true) :
    (process env job js).1.tries = snap.tries ∧
    (process env job js).1.old_snapshot = snap := by
  obtain ⟨ha, hb, _⟩ := runInner_some_state env job js snap js1 e h1 h2
  unfold process
  rw [h0]
  simp only [Option.isSome_none, Bool.false_eq_true, if_false]
  rw [h2]
  dsimp only
  cases hih : innerHandler env job js1 e with
  | mk js2 esc =>
    have ho := innerHandler_old_snapshot env job js1 e
    rw [hih] at ho
    cases esc with
    | none =>
      have ht := innerHandler_tries_notModified env job js1 e h3
      rw [hih] at ht
      dsimp only
      exact ⟨by rw [ht, hb], by rw [ho, ha]⟩
    | some e2 =>
      have hesc : e2.isNotModified = true := by
        rw [hih] at h4
        exact h4
      have ht := innerHandler_escape_tries env job js1 e (by rw [hih]; rfl)
      rw [hih] at ht
      dsimp only
      by_cases hpy : getenvTruthy env.pycharm_hosted = true
      · rw [if_pos hpy]
        exact ⟨by rw [ht, hb], by rw [ho, ha]⟩
      · rw [if_neg hpy]
        have hot := outerRecover_tries_notModified job js2 e2 hesc
        have hoo := outerRecover_old_snapshot job js2 e2
        exact ⟨by rw [hot, ht, hb], by rw [hoo, ho, ha]⟩

/-- C3: when load, retrieval, the automatic filter, filter normalization and
the whole filter chain succeed, `process` returns without exception, leaves
`tries == old_snapshot.tries` (not incremented) and stores the fully filtered
output in `new_data`/`new_mime_type`. -/
theorem process_success_state (env : Env) (job : Job) (js : JobState) (snap : Snapshot)
    (dem : String × String × String) (dm1 : String × String) (fl : List FilterFn)
    (dm2 : String × String)
    (h0 : js.exception = none)
    (h1 : env.db_load job.guid = .ok snap)
    (h2 : job.retrieve = .ok dem)
    (h3 : job.auto_process (retrievedState env job js snap dem.2.1) dem.1 dem.2.2 = .ok dm1)
    (h4 : job.normalize_filters = .ok fl)
    (h5 : applyFilterChain fl (retrievedState env job js snap dem.2.1) dm1.1 dm1.2 = .ok dm2) :
    process env job js =
      ({ retrievedState env job js snap dem.2.1 with
          new_data := dm2.1
          new_mime_type := dm2.2 }, none) ∧
    (process env job js).1.exception = none ∧
    (process env job js).1.tries = snap.tries ∧
    (process env job js).1.old_snapshot = snap ∧
    (process env job js).1.tries = (process env job js).1.old_snapshot.tries ∧
    (process env job js).1.new_data = dm2.1 ∧
    (process env job js).1.new_mime_type = dm2.2 := by
  obtain ⟨hL1, hL2, hL3⟩ := loadedState_fields env job js snap
  have hri : runInner env job js =
      ({ retrievedState env job js snap dem.2.1 with
          new_data := dm2.1
          new_mime_type := dm2.2 }, none) := by
    unfold runInner
    rw [h1]
    dsimp only
    rw [h2]
    dsimp only
    rw [h3]
    dsimp only
    rw [h4]
    dsimp only
    rw [h5]
  have hp : process env job js =
      ({ retrievedState env job js snap dem.2.1 with
          new_data := dm2.1
          new_mime_type := dm2.2 }, none) := by
    unfold process
    rw [h0]
    simp only [Option.isSome_none, Bool.false_eq_true, if_false]
    rw [hri]
  rw [hp]
  refine ⟨rfl, ?_, ?_, ?_, ?_, rfl, rfl⟩
  · show (retrievedState env job js snap dem.2.1).exception = none
    rw [show (retrievedState env job js snap dem.2.1).exception =
      (loadedState env job js snap).exception from rfl, hL3, h0]
  · show (retrievedState env job js snap dem.2.1).tries = snap.tries
    rw [show (retrievedState env job js snap dem.2.1).tries =
      (loadedState env job js snap).tries from rfl, hL2]
  · show (retrievedState env job js snap dem.2.1).old_snapshot = snap
    rw [show (retrievedState env job js snap dem.2.1).old_snapshot =
      (loadedState env job js snap).old_snapshot from rfl, hL1]
  · show (retrievedState env job js snap dem.2.1).tries =
      (retrievedState env job js snap dem.2.1).old_snapshot.tries
    rw [show (retrievedState env job js snap dem.2.1).tries =
      (loadedState env job js snap).tries from rfl, hL2,
      show (retrievedState env job js snap dem.2.1).old_snapshot =
      (loadedState env job js snap).old_snapshot from rfl, hL1]

/-- C7 (amended): when the inner error-handling layer itself raises `e`,
`PYCHARM_HOSTED` is unset or empty, and the job's `format_error` returns
normally when called on `e` at the outer layer, `process` recovers at the
second outer layer: it sets `exception` to `e`, forces
`error_ignored = False`, increments `tries` by one unless `e` is a
not-modified signal, and returns normally. -/
theorem process_outer_recovery (env : Env) (job : Job) (js : JobState)
    (js1 : JobState) (e0 : Exc) (js2 : JobState) (e : Exc) (tb : String)
    (h0 : js.exception = none)
    (h2 : runInner env job js = (js1, some e0))
    (h4 : innerHandler env job js1 e0 = (js2, some e))
    (h5 : getenvTruthy env.pycharm_hosted = false)
    (h6 : job.format_error e = .ok tb) :
    ∃ js3, process env job js = (js3, none) ∧
      js3.exception = some e ∧
      js3.error_ignored = some (PyVal.bool false) ∧
      js3.traceback = tb ∧
      js3.tries = (if e.isNotModified then js2.tries else js2.tries + 1) := by
  have hp : process env job js = outerRecover job js2 e := by
    unfold process
    rw [h0]
    simp only [Option.isSome_none, Bool.false_eq_true, if_false]
    rw [h2]
    dsimp only
    rw [h4]
    dsimp only
    rw [h5]
    simp only [Bool.false_eq_true, if_false]
  rw [hp]
  unfold outerRecover
  rw [h6]
  dsimp only
  by_cases hnm : e.isNotModified = true
  · rw [if_pos hnm, hnm, if_pos rfl]
    exact ⟨_, rfl, rfl, rfl, rfl, rfl⟩
  · rw [if_neg hnm]
    simp only [Bool.not_eq_true] at hnm
    rw [hnm]
    simp only [Bool.false_eq_true, if_false]
    exact ⟨_, rfl, rfl, rfl, rfl, rfl⟩

/-- C10: when the inner error-handling layer itself raises `e`, `process`
re-raises `e` to the caller exactly when `PYCHARM_HOSTED` is set to a
non-empty value; when the variable is unset or empty it performs the outer
recovery instead. -/
theorem process_pycharm_hosted_reraises (env : Env) (job : Job) (js : JobState)
    (js1 : JobState) (e0 : Exc) (js2 : JobState) (e : Exc)
    (h0 : js.exception = none)
    (h2 : runInner env job js = (js1, some e0))
    (h4 : innerHandler env job js1 e0 = (js2, some e)) :
    (∀ s, env.pycharm_hosted = some s → s ≠ "" → process env job js = (js2, some e)) ∧
    ((env.pycharm_hosted = none ∨ env.pycharm_hosted = some "") →
      process env job js = outerRecover job js2 e) := by
  have hp : ∀ b : Bool, getenvTruthy env.pycharm_hosted = b →
      process env job js = (if b then (js2, some e) else outerRecover job js2 e) := by
    intro b hb
    unfold process
    rw [h0]
    simp only [Option.isSome_none, Bool.false_eq_true, if_false]
    rw [h2]
    dsimp only
    rw [h4]
    dsimp only
    rw [hb]
  constructor
  · intro s hs hne
    have := hp true (by simp [getenvTruthy, hs, hne])
    simpa using this
  · intro hcase
    have hfalse : getenvTruthy env.pycharm_hosted = false := by
      rcases hcase with h | h <;> simp [getenvTruthy, h]
    have := hp false hfalse
    simpa using this

/-- C6: `save(use_old_data=True)` first copies `old_data`/`old_etag`/`old_mime_type`
into the `new_*` fields, and for any value of `use_old_data` the store ends up
mapping the job's GUID to a Snapshot whose five fields are exactly the current
`new_data`, `new_timestamp`, `tries`, `new_etag` and `new_mime_type`. -/
theorem save_copies_old_and_writes_current_snapshot :
    ∀ (job : Job) (js : JobState) (db : List (String × Snapshot)) (b : Bool),
      (JobState.save job true js db).1.new_data = js.old_data ∧
      (JobState.save job true js db).1.new_etag = js.old_etag ∧
      (JobState.save job true js db).1.new_mime_type = js.old_mime_type ∧
      dictGet (JobState.save job b js db).2 job.guid =
        some
          { data := (JobState.save job b js db).1.new_data
            timestamp := (JobState.save job b js db).1.new_timestamp
            tries := (JobState.save job b js db).1.tries
            etag := (JobState.save job b js db).1.new_etag
            mime_type := (JobState.save job b js db).1.new_mime_type } := by
  intro job js db b
  refine ⟨rfl, rfl, rfl, ?_⟩
  simp only [JobState.save]
  exact dictGet_dictInsert_self db job.guid _

/-- C9: the guard `self.generated_diff is not <empty dict literal>` evaluates
to True on every call (and the `is` test to False), so `get_diff` is
extensionally equal to the simplified variant whose cache check is solely
membership in `generated_diff` and whose recompute condition is solely
non-membership in `unfiltered_diff`. -/
theorem get_diff_equals_simplified :
    ∀ (job : Job) (differ : Option DifferFn) (tz : Option String) (kind : ReportKind)
      (js : JobState),
      pyDictIsNotEmptyLiteral js.generated_diff = true ∧
      pyDictIsEmptyLiteral js.generated_diff = false ∧
      JobState.get_diff job differ tz kind js = get_diff_simplified job differ tz kind js := by
  intro job differ tz kind js
  exact ⟨rfl, rfl, rfl⟩

theorem finishDiff_ok_cached (job : Job) (kind : ReportKind) (js : JobState) (invoked : Bool)
    (js1 : JobState) (b : Bool) (s : String)
    (h : finishDiff job kind js invoked = (js1, b, .ok s)) :
    dictGet js1.generated_diff kind = some s := by
  unfold finishDiff at h
  cases hu : dictGet js.unfiltered_diff kind with
  | none =>
    rw [hu] at h
    simp at h
  | some g =>
    rw [hu] at h
    dsimp only at h
    by_cases hg : g = ""
    · rw [if_neg (by simp [hg])] at h
      simp only [Prod.mk.injEq, Except.ok.injEq] at h
      obtain ⟨h1, _, h3⟩ := h
      rw [← h1, h3]
      exact dictGet_dictInsert_self js.generated_diff kind s
    · rw [if_pos hg] at h
      cases hn : job.normalize_diff_filters with
      | error e =>
        rw [hn] at h
        simp at h
      | ok fl =>
        rw [hn] at h
        dsimp only at h
        cases hch : applyFilterChain fl js g "text/plain" with
        | error e =>
          rw [hch] at h
          simp at h
        | ok gm =>
          rw [hch] at h
          simp only [Prod.mk.injEq, Except.ok.injEq] at h
          obtain ⟨h1, _, h3⟩ := h
          rw [← h1, h3]
          exact dictGet_dictInsert_self js.generated_diff kind s

/-- After a successful `get_diff`, the returned string is cached in the
returned state's `generated_diff` under the requested kind. -/
theorem get_diff_ok_cached (job : Job) (differ : Option DifferFn) (tz : Option String)
    (kind : ReportKind) (js js1 : JobState) (b : Bool) (s : String)
    (h : JobState.get_diff job differ tz kind js = (js1, b, .ok s)) :
    dictGet js1.generated_diff kind = some s := by
  unfold JobState.get_diff at h
  cases hc : dictGet js.generated_diff kind with
  | some v =>
    rw [hc] at h
    simp only [pyDictIsNotEmptyLiteral, pyDictIsEmptyLiteral, Bool.not_false, Option.isSome_some,
      Bool.and_true, if_true, Option.getD_some] at h
    simp only [Prod.mk.injEq, Except.ok.injEq] at h
    obtain ⟨h1, _, h3⟩ := h
    rw [← h1, hc, h3]
  | none =>
    rw [hc] at h
    simp only [pyDictIsNotEmptyLiteral, pyDictIsEmptyLiteral, Bool.not_false, Option.isSome_none,
      Bool.and_false, Bool.false_eq_true, if_false, Bool.false_or] at h
    by_cases hu : (dictGet js.unfiltered_diff kind).isNone = true
    · rw [if_pos hu] at h
      cases hd : (differ.getD job.run_differ) js kind tz with
      | error e =>
        rw [hd] at h
        simp at h
      | ok ud =>
        rw [hd] at h
        exact finishDiff_ok_cached job kind _ true js1 b s h
    · rw [if_neg hu] at h
      exact finishDiff_ok_cached job kind js false js1 b s h

/-- C4: `get_diff` is idempotent and memoized per report kind: after a
successful call, a second call with the same kind (any differ override, any
timezone) returns the identical string, leaves the state unchanged and does
not invoke the differ again. -/
theorem get_diff_memoized (job : Job) (differ differ2 : Option DifferFn)
    (tz tz2 : Option String) (kind : ReportKind) (js js1 : JobState) (b : Bool) (s : String)
    (h : JobState.get_diff job differ tz kind js = (js1, b, .ok s)) :
    JobState.get_diff job differ2 tz2 kind js1 = (js1, false, .ok s) := by
  have hc := get_diff_ok_cached job differ tz kind js js1 b s h
  unfold JobState.get_diff
  rw [hc]
  simp [pyDictIsNotEmptyLiteral, pyDictIsEmptyLiteral]

theorem process_increments_tries_on_unignored_error_witness :
    ∃ js2, process envA jobA js0 = (js2, none) ∧
      js2.old_snapshot = snap0 ∧
      js2.tries = snap0.tries + 1 ∧
      js2.tries = js2.old_snapshot.tries + 1 ∧
      js2.exception = some (Exc.other 1) ∧
      js2.traceback = "formatted" :=
  process_increments_tries_on_unignored_error envA jobA js0 snap0
    ((runInner envA jobA js0).1) (Exc.other 1) "formatted" (PyVal.bool false)
    rfl rfl rfl rfl rfl rfl rfl

theorem process_not_modified_keeps_tries_witness :
    (process envA jobC2 js0).1.tries = snap0.tries ∧
    (process envA jobC2 js0).1.old_snapshot = snap0 :=
  process_not_modified_keeps_tries envA jobC2 js0 snap0
    ((runInner envA jobC2 js0).1) Exc.notModifiedError
    rfl rfl rfl rfl rfl

theorem process_success_state_witness :
    process envA jobC3 js0 =
      ({ retrievedState envA jobC3 js0 snap0 ("data", "etag1", "text/html").2.1 with
          new_data := (("data-auto-filt", "text/markdown") : String × String).1
          new_mime_type := (("data-auto-filt", "text/markdown") : String × String).2 }, none) ∧
    (process envA jobC3 js0).1.exception = none ∧
    (process envA jobC3 js0).1.tries = snap0.tries ∧
    (process envA jobC3 js0).1.old_snapshot = snap0 ∧
    (process envA jobC3 js0).1.tries = (process envA jobC3 js0).1.old_snapshot.tries ∧
    (process envA jobC3 js0).1.new_data = (("data-auto-filt", "text/markdown") : String × String).1 ∧
    (process envA jobC3 js0).1.new_mime_type =
      (("data-auto-filt", "text/markdown") : String × String).2 :=
  process_success_state envA jobC3 js0 snap0 ("data", "etag1", "text/html")
    ("data-auto", "text/html") filtersC3 ("data-auto-filt", "text/markdown")
    rfl rfl rfl rfl rfl rfl

theorem process_outer_recovery_witness :
    ∃ js3, process envA jobB js0 = (js3, none) ∧
      js3.exception = some (Exc.other 2) ∧
      js3.error_ignored = some (PyVal.bool false) ∧
      js3.traceback = "formatted" ∧
      js3.tries =
        (if (Exc.other 2).isNotModified then
          (innerHandler envA jobB ((runInner envA jobB js0).1) (Exc.other 1)).1.tries
        else
          (innerHandler envA jobB ((runInner envA jobB js0).1) (Exc.other 1)).1.tries + 1) :=
  process_outer_recovery envA jobB js0 ((runInner envA jobB js0).1) (Exc.other 1)
    ((innerHandler envA jobB ((runInner envA jobB js0).1) (Exc.other 1)).1) (Exc.other 2)
    "formatted" rfl rfl rfl rfl rfl

/-- C7 counterexample: with `PYCHARM_HOSTED` set to a non-empty value, an
exception raised by the inner error-handling layer (`ignore_error` raising
while handling the retrieval failure) is propagated by `process` instead of
being recovered: no outer-layer recovery runs, `error_ignored` is not forced
to `False`, and the recorded exception stays the original retrieval error. -/
theorem process_outer_recovery_counterexample :
    (runInner envB jobB js0).2 = some (Exc.other 1) ∧
    (innerHandler envB jobB ((runInner envB jobB js0).1) (Exc.other 1)).2 =
      some (Exc.other 2) ∧
    (process envB jobB js0).2 = some (Exc.other 2) ∧
    (process envB jobB js0).1.error_ignored ≠ some (PyVal.bool false) ∧
    (process envB jobB js0).1.exception ≠ some (Exc.other 2) :=
  ⟨rfl, rfl, rfl, by decide, by decide⟩

theorem process_pycharm_hosted_reraises_witness :
    process envB jobB js0 =
      ((innerHandler envB jobB ((runInner envB jobB js0).1) (Exc.other 1)).1,
        some (Exc.other 2)) :=
  (process_pycharm_hosted_reraises envB jobB js0 ((runInner envB jobB js0).1) (Exc.other 1)
    ((innerHandler envB jobB ((runInner envB jobB js0).1) (Exc.other 1)).1) (Exc.other 2)
    rfl rfl rfl).1 "1" rfl (by decide)

theorem get_diff_memoized_witness :
    JobState.get_diff jobA none (some "Etc/UTC") ReportKind.text
        ((JobState.get_diff jobA none none ReportKind.text js0).1) =
      ((JobState.get_diff jobA none none ReportKind.text js0).1, false, .ok "diff-t") :=
  get_diff_memoized jobA none none none (some "Etc/UTC") ReportKind.text js0
    ((JobState.get_diff jobA none none ReportKind.text js0).1) true "diff-t" rfl

theorem get_filtered_cons (cfg : DisplayConfig) (tz : Option String) (p : Job × JobState)
    (rest : List (Job × JobState)) :
    Report.get_filtered_job_states cfg tz (p :: rest) =
      (if !displayExcluded cfg p.2.verb &&
          !(decide (p.2.verb = some Verb.changedNoReport)) then
        if decide (p.2.verb = some Verb.changed) && !cfg.empty_diff then
          match JobState.get_diff p.1 none tz ReportKind.text p.2 with
          | (_, _, .error e) => .error e
          | (js2, _, .ok s) =>
            if s = "" then Report.get_filtered_job_states cfg tz rest
            else (Report.get_filtered_job_states cfg tz rest).map (fun l => js2 :: l)
        else (Report.get_filtered_job_states cfg tz rest).map (fun l => p.2 :: l)
      else Report.get_filtered_job_states cfg tz rest) := rfl

/-- C5: for job states each with a verb set (and whose lazily computed diffs,
when needed, return normally), `get_filtered_job_states` yields in original
order exactly the states selected by `reportKeep`: `changed,no_report` is
excluded unconditionally, 'unchanged'/'new'/'error' are excluded when their
display flag is disabled, and a `changed` state is excluded when empty-diff
display is disabled and its diff (computed with the Report's timezone) is the
empty string. -/
theorem get_filtered_job_states_spec (cfg : DisplayConfig) (tz : Option String)
    (states : List (Job × JobState))
    (hverb : ∀ p ∈ states, (p.2.verb).isSome = true)
    (hdiff : ∀ p ∈ states, p.2.verb = some Verb.changed → cfg.empty_diff = false →
      ((reportDiff tz p).2.2).isOk = true) :
    Report.get_filtered_job_states cfg tz states =
      .ok ((states.filter (reportKeep cfg tz)).map (reportYield cfg tz)) := by
  induction states with
  | nil => rfl
  | cons p rest ih =>
    have hverbR : ∀ q ∈ rest, (q.2.verb).isSome = true :=
      fun q hq => hverb q (List.mem_cons_of_mem p hq)
    have hdiffR : ∀ q ∈ rest, q.2.verb = some Verb.changed → cfg.empty_diff = false →
        ((reportDiff tz q).2.2).isOk = true :=
      fun q hq => hdiff q (List.mem_cons_of_mem p hq)
    have ihr := ih hverbR hdiffR
    rw [get_filtered_cons]
    by_cases hA : (!displayExcluded cfg p.2.verb &&
        !(decide (p.2.verb = some Verb.changedNoReport))) = true
    · rw [if_pos hA]
      obtain ⟨hA1, hA2⟩ := Bool.and_eq_true .. |>.mp hA
      by_cases hB : (decide (p.2.verb = some Verb.changed) && !cfg.empty_diff) = true
      · rw [if_pos hB]
        obtain ⟨hB1, hB2⟩ := Bool.and_eq_true .. |>.mp hB
        have hch : p.2.verb = some Verb.changed := of_decide_eq_true hB1
        have hed : cfg.empty_diff = false := by
          simpa using hB2
        have hok := hdiff p (List.mem_cons_self p rest) hch hed
        obtain ⟨s, hs⟩ : ∃ s, (reportDiff tz p).2.2 = .ok s := by
          cases hr : (reportDiff tz p).2.2 with
          | error e => rw [hr] at hok; simp [Except.isOk, Except.toBool] at hok
          | ok s => exact ⟨s, rfl⟩
        have hmatch : JobState.get_diff p.1 none tz ReportKind.text p.2 =
            ((reportDiff tz p).1, (reportDiff tz p).2.1, Except.ok s) := by
          rw [← hs]
          rfl
        rw [hmatch]
        dsimp only
        have hstr : reportDiffStr tz p = s := by
          unfold reportDiffStr
          rw [hs]
        by_cases hse : s = ""
        · rw [if_pos hse]
          rw [ihr]
          have hkeep : reportKeep cfg tz p = false := by
            simp [reportKeep, hch, hed, hstr, hse]
          rw [List.filter_cons_of_neg (by simp [hkeep])]
        · rw [if_neg hse]
          rw [ihr]
          have hkeep : reportKeep cfg tz p = true := by
            simp [reportKeep, hch, hed, hstr, hse, displayExcluded]
          rw [List.filter_cons_of_pos hkeep]
          have hyield : reportYield cfg tz p = (reportDiff tz p).1 := by
            simp [reportYield, hch, hed]
          simp [hyield, Except.map]
      · rw [if_neg hB]
        rw [ihr]
        have hkeep : reportKeep cfg tz p = true := by
          have hB3 : (decide (p.2.verb = some Verb.changed) && !cfg.empty_diff) = false := by
            simpa using hB
          simp [reportKeep, hB3]
          constructor
          · simpa using hA2
          · simpa using hA1
        rw [List.filter_cons_of_pos hkeep]
        have hyield : reportYield cfg tz p = p.2 := by
          have hB3 : (decide (p.2.verb = some Verb.changed) && !cfg.empty_diff) = false := by
            simpa using hB
          simp [reportYield, hB3]
        simp [hyield, Except.map]
    · rw [if_neg hA]
      rw [ihr]
      have hkeep : reportKeep cfg tz p = false := by
        have hA3 : (!displayExcluded cfg p.2.verb &&
            !(decide (p.2.verb = some Verb.changedNoReport))) = false := by
          simpa using hA
        rcases Bool.and_eq_false_iff.mp hA3 with h | h
        · simp only [Bool.not_eq_false'] at h
          simp [reportKeep, h]
        · simp only [Bool.not_eq_false'] at h
          simp [reportKeep, h]
      congr 1
      rw [List.filter_cons_of_neg (by simp [hkeep])]

theorem get_filtered_job_states_spec_witness :
    Report.get_filtered_job_states cfgW none statesW =
      .ok ((statesW.filter (reportKeep cfgW none)).map (reportYield cfgW none)) :=
  get_filtered_job_states_spec cfgW none statesW (by decide) (by decide)

/-- C8 counterexample: two `JobState` instances constructed in sequence alias
the same `history_dic_snapshots` container (the class-level default), and two
`Report` instances alias the same `job_states` container — the constructor
does not give every mutable class-level-default container a fresh
per-instance copy. -/
theorem constructor_fresh_containers_counterexample :
    (jobStateInit firstInstanceId).1.history_dic_snapshots_id =
      (jobStateInit (jobStateInit firstInstanceId).2).1.history_dic_snapshots_id ∧
    (reportInit firstInstanceId).1.job_states_id =
      (reportInit (reportInit firstInstanceId).2).1.job_states_id :=
  ⟨rfl, rfl⟩

/-- C8 (amended): the constructor gives two distinct `JobState` instances
fresh, never-aliased `generated_diff` and `unfiltered_diff` containers
(distinct from each other and from the class-level defaults), but
`history_dic_snapshots` is left aliasing the class-level default dict in
every instance, and every `Report` instance likewise aliases the class-level
`job_states` list. -/
theorem constructor_fresh_containers_amended (c1 c2 : Nat)
    (h1 : firstInstanceId ≤ c1) (h2 : c1 + 2 ≤ c2) :
    ((jobStateInit c1).1.generated_diff_id ≠ (jobStateInit c2).1.generated_diff_id ∧
     (jobStateInit c1).1.unfiltered_diff_id ≠ (jobStateInit c2).1.unfiltered_diff_id ∧
     (jobStateInit c1).1.generated_diff_id ≠ (jobStateInit c2).1.unfiltered_diff_id ∧
     (jobStateInit c1).1.unfiltered_diff_id ≠ (jobStateInit c2).1.generated_diff_id ∧
     (jobStateInit c1).1.generated_diff_id ≠ jobStateHistoryClassId ∧
     (jobStateInit c1).1.generated_diff_id ≠ jobStateUnfilteredClassId ∧
     (jobStateInit c1).1.unfiltered_diff_id ≠ jobStateHistoryClassId ∧
     (jobStateInit c1).1.unfiltered_diff_id ≠ jobStateUnfilteredClassId) ∧
    (jobStateInit c1).1.history_dic_snapshots_id = jobStateHistoryClassId ∧
    (jobStateInit c2).1.history_dic_snapshots_id = jobStateHistoryClassId ∧
    (reportInit c1).1.job_states_id = (reportInit c2).1.job_states_id := by
  unfold firstInstanceId at h1
  unfold jobStateInit reportInit jobStateHistoryClassId jobStateUnfilteredClassId
  dsimp only
  omega

theorem constructor_fresh_containers_amended_witness :
    (((jobStateInit 3).1.generated_diff_id ≠ (jobStateInit 5).1.generated_diff_id ∧
      (jobStateInit 3).1.unfiltered_diff_id ≠ (jobStateInit 5).1.unfiltered_diff_id ∧
      (jobStateInit 3).1.generated_diff_id ≠ (jobStateInit 5).1.unfiltered_diff_id ∧
      (jobStateInit 3).1.unfiltered_diff_id ≠ (jobStateInit 5).1.generated_diff_id ∧
      (jobStateInit 3).1.generated_diff_id ≠ jobStateHistoryClassId ∧
      (jobStateInit 3).1.generated_diff_id ≠ jobStateUnfilteredClassId ∧
      (jobStateInit 3).1.unfiltered_diff_id ≠ jobStateHistoryClassId ∧
      (jobStateInit 3).1.unfiltered_diff_id ≠ jobStateUnfilteredClassId) ∧
     (jobStateInit 3).1.history_dic_snapshots_id = jobStateHistoryClassId ∧
     (jobStateInit 5).1.history_dic_snapshots_id = jobStateHistoryClassId ∧
     (reportInit 3).1.job_states_id = (reportInit 5).1.job_states_id) :=
  constructor_fresh_containers_amended 3 5 (by decide) (by decide)

end Webchanges
